import Mathlib

/-!
Verification of the youtube-archiver engine against its specification.

Shallow embedding of the relevant source functions:
* `src/engine/job_queue.py` — download job store, retry classifier, worker engine,
  YouTube adapter;
* `src/engine/core.py` — discovery loop (`run_once`), filename sanitization,
  downtime window handling;
* `src/engine/search_scoring.py` — candidate scoring.

Python strings are modelled as `List Char`; SQL timestamps (ISO-8601 strings
compared lexicographically) are modelled as `Nat` (order-isomorphic for
well-formed timestamps of a fixed width); Python floats in the scoring module
are modelled as exact rationals `ℚ`.
-/

namespace YTA

/-- A Python string, modelled as a list of characters. -/
abbrev Msg := List Char

/-- `str.lower()` as used in `_is_retryable_error` (job_queue.py:468).
Modelled as ASCII case folding via `Char.toLower`; Python's `str.lower` also
maps non-ASCII letters, but every token matched against the lowered message in
the source is ASCII-only. -/
def pyLower (s : Msg) : Msg := s.map Char.toLower

/-- Python's `token in lowered` substring test. -/
def containsToken (hay tok : Msg) : Bool := decide (tok <:+: hay)

/-- The `non_retryable` token tuple of `_is_retryable_error` (job_queue.py:469-478). -/
def nonRetryableTokens : List Msg :=
  ["drm".data, "http error 403".data, "http error 404".data, "403 forbidden".data,
   "404 not found".data, "private video".data, "video unavailable".data,
   "not available".data]

/-- The `retryable` token tuple of `_is_retryable_error` (job_queue.py:479-497). -/
def retryableTokens : List Msg :=
  ["timeout".data, "timed out".data, "temporary failure".data, "connection reset".data,
   "connection aborted".data, "connection refused".data, "network is unreachable".data,
   "remote end closed connection".data, "http error 429".data, "http error 500".data,
   "http error 502".data, "http error 503".data, "http error 504".data,
   "extractor error".data, "ssl".data, "tls".data, "eof".data]

/-- `_is_retryable_error(error_message)` (job_queue.py:465-500): an empty message
is not retryable; a message containing a fatal token is not retryable; otherwise
the message is retryable iff it contains a retryable token. -/
def is_retryable_error (error_message : Msg) : Bool :=
  if error_message.isEmpty then false
  else
    let lowered := pyLower error_message
    if nonRetryableTokens.any (fun t => containsToken lowered t) then false
    else retryableTokens.any (fun t => containsToken lowered t)

/-! ### Download job store (src/engine/job_queue.py) -/

/-- The five job status strings. -/
inductive JobStatus where
  | queued
  | running
  | completed
  | failed
  | canceled
deriving DecidableEq, Repr

/-- One row of the `download_jobs` table (job_queue.py:52-132, 136-186).
Timestamp columns hold `Option Nat` (NULL-able ISO timestamps); `created_at`
and `updated_at` are always set. -/
structure Job where
  id : String
  origin : String
  origin_id : String
  media_type : String
  media_intent : String
  source : String
  url : String
  output_template : Option String
  output_dir : String
  status : JobStatus
  queued : Option Nat
  running : Option Nat
  completed : Option Nat
  failed : Option Nat
  canceled : Option Nat
  attempts : Nat
  max_attempts : Nat
  created_at : Nat
  updated_at : Nat
  last_error : Option String
  trace_id : String
deriving DecidableEq, Repr

/-- The `download_jobs` table in row (rowid) order. -/
structure Store where
  jobs : List Job
deriving DecidableEq, Repr

/-- Arguments of `DownloadJobStore.enqueue` (job_queue.py:198-213), with
`job_id` and `trace_id` already generated. -/
structure EnqueueParams where
  origin : String
  origin_id : String
  media_type : String
  media_intent : String
  source : String
  url : String
  output_template : Option String
  output_dir : String
  max_attempts : Option Nat
  trace_id : String
  job_id : String
deriving DecidableEq, Repr

/-- `_ALLOWED_ORIGINS` (job_queue.py:12). -/
def allowedOrigins : List String := ["playlist", "search"]

/-- `_ALLOWED_MEDIA_TYPES` (job_queue.py:13). -/
def allowedMediaTypes : List String := ["audio", "video"]

/-- `_ALLOWED_MEDIA_INTENTS` (job_queue.py:14). -/
def allowedMediaIntents : List String := ["track", "album", "playlist", "episode", "movie"]

/-- The row INSERTed by `enqueue` (job_queue.py:226-260): `status='queued'`,
`queued=now`, `attempts=0`, `created_at=updated_at=now`.
`max_attempts or _DEFAULT_MAX_ATTEMPTS` treats `0` as falsy. -/
def enqueue_row (p : EnqueueParams) (now : Nat) : Job :=
  { id := p.job_id
    origin := p.origin
    origin_id := p.origin_id
    media_type := p.media_type
    media_intent := p.media_intent
    source := p.source
    url := p.url
    output_template := p.output_template
    output_dir := p.output_dir
    status := JobStatus.queued
    queued := some now
    running := none
    completed := none
    failed := none
    canceled := none
    attempts := 0
    max_attempts := match p.max_attempts with
      | none => 3
      | some m => if m = 0 then 3 else m
    created_at := now
    updated_at := now
    last_error := none
    trace_id := p.trace_id }

/-- `DownloadJobStore.enqueue` (job_queue.py:198-272): validate the enum and
required fields (raising `ValueError`, modelled as `none`), then INSERT. -/
def enqueue (s : Store) (p : EnqueueParams) (now : Nat) : Option Store :=
  if p.origin ∈ allowedOrigins ∧ p.media_type ∈ allowedMediaTypes ∧
      p.media_intent ∈ allowedMediaIntents ∧ p.source ≠ "" ∧ p.url ≠ "" ∧
      p.output_dir ≠ "" then
    some { jobs := s.jobs ++ [enqueue_row p now] }
  else
    none

/-- `queued IS NULL OR queued <= now` (job_queue.py:283). -/
def queuedOk (q : Option Nat) (now : Nat) : Bool :=
  match q with
  | none => true
  | some t => t ≤ now

/-- The WHERE clause of `claim_next`'s SELECT (job_queue.py:283):
`status='queued' AND source=? AND (queued IS NULL OR queued <= ?)`. -/
def eligible (source : String) (now : Nat) (j : Job) : Bool :=
  decide (j.status = JobStatus.queued) && (j.source == source) && queuedOk j.queued now

/-- Sort key for `ORDER BY queued ASC` with SQLite's NULLs-first semantics. -/
def queuedKey : Option Nat → Nat
  | none => 0
  | some t => t + 1

/-- Sort key for `ORDER BY queued ASC, created_at ASC` (job_queue.py:284). -/
def claimKey (j : Job) : Nat × Nat := (queuedKey j.queued, j.created_at)

/-- Strict lexicographic order on `(queued, created_at)` keys. -/
def keyLt (a b : Nat × Nat) : Prop := a.1 < b.1 ∨ (a.1 = b.1 ∧ a.2 < b.2)

/-- Lexicographic order on `(queued, created_at)` keys. -/
def keyLe (a b : Nat × Nat) : Prop := a.1 < b.1 ∨ (a.1 = b.1 ∧ a.2 ≤ b.2)

instance (a b : Nat × Nat) : Decidable (keyLt a b) := by unfold keyLt; infer_instance

instance (a b : Nat × Nat) : Decidable (keyLe a b) := by unfold keyLe; infer_instance

/-- `ORDER BY queued ASC, created_at ASC LIMIT 1`: the first row (in table
order) with minimal key. -/
def selectMinAux (best : Job) : List Job → Job
  | [] => best
  | k :: rest =>
      if keyLt (claimKey k) (claimKey best) then selectMinAux k rest
      else selectMinAux best rest

/-- `LIMIT 1` over the ordered, filtered rows. -/
def selectMin : List Job → Option Job
  | [] => none
  | j :: rest => some (selectMinAux j rest)

/-- The row as the UPDATE of `claim_next` leaves it in the table
(job_queue.py:294-301): `status='running', running=now, updated_at=now`. -/
def run_row (j : Job) (now : Nat) : Job :=
  { j with status := JobStatus.running, running := some now, updated_at := now }

/-- The `DownloadJob` value `claim_next` returns (job_queue.py:306-309): the
SELECTed row with only `status` and `running` overridden (`updated_at` keeps
its pre-UPDATE value). -/
def claimed_row (j : Job) (now : Nat) : Job :=
  { j with status := JobStatus.running, running := some now }

/-- `DownloadJobStore.claim_next` (job_queue.py:274-309): under one immediate
transaction, SELECT the oldest eligible row, UPDATE it to `running`
(`WHERE id=? AND status='queued'`), and return it; `none` when no row is
eligible or the guarded UPDATE did not match exactly one row. -/
def claim_next (s : Store) (source : String) (now : Nat) : Option Job × Store :=
  match selectMin (s.jobs.filter (eligible source now)) with
  | none => (none, s)
  | some row =>
      let updated : List Job := s.jobs.map fun k =>
        if k.id = row.id ∧ k.status = JobStatus.queued then run_row k now else k
      let matched : Nat :=
        (s.jobs.filter fun k =>
          decide (k.id = row.id) && decide (k.status = JobStatus.queued)).length
      if matched = 1 then (some (claimed_row row now), { jobs := updated })
      else (none, { jobs := updated })

/-- `DownloadJobStore.mark_completed` (job_queue.py:377-399):
`UPDATE ... SET status='completed', completed=?, updated_at=? WHERE id=? AND
status='running'`; returns whether exactly one row changed. -/
def mark_completed (s : Store) (job : Job) (now : Nat) : Bool × Store :=
  let updated : List Job := s.jobs.map fun k =>
    if k.id = job.id ∧ k.status = JobStatus.running then
      { k with status := JobStatus.completed, completed := some now, updated_at := now }
    else k
  let matched : Nat :=
    (s.jobs.filter fun k =>
      decide (k.id = job.id) && decide (k.status = JobStatus.running)).length
  (matched = 1, { jobs := updated })

/-- `DownloadJobStore.mark_canceled` (job_queue.py:401-424). -/
def mark_canceled (s : Store) (job : Job) (reason : String) (now : Nat) : Bool × Store :=
  let updated : List Job := s.jobs.map fun k =>
    if k.id = job.id ∧ k.status = JobStatus.running then
      { k with status := JobStatus.canceled, canceled := some now, updated_at := now,
               last_error := some reason }
    else k
  let matched : Nat :=
    (s.jobs.filter fun k =>
      decide (k.id = job.id) && decide (k.status = JobStatus.running)).length
  (matched = 1, { jobs := updated })

/-- `DownloadJobStore.mark_failed` (job_queue.py:426-462): with a truthy
`retry_at` the row goes back to `queued` with `queued=retry_at`; otherwise it
goes to `failed` with `failed=COALESCE(failed, now)` and `queued=NULL`.
`attempts` defaults to `job.attempts + 1`. Guarded by `status='running'`. -/
def mark_failed (s : Store) (job : Job) (error_message : String) (retry_at : Option Nat)
    (attempts_arg : Option Nat) (now : Nat) : Bool × Store :=
  let attempts := attempts_arg.getD (job.attempts + 1)
  let statusNew := if retry_at.isSome then JobStatus.queued else JobStatus.failed
  let updated : List Job := s.jobs.map fun k =>
    if k.id = job.id ∧ k.status = JobStatus.running then
      { k with status := statusNew,
               failed := if statusNew = JobStatus.failed then some (k.failed.getD now)
                         else k.failed,
               queued := if statusNew = JobStatus.queued then retry_at else none,
               attempts := attempts,
               updated_at := now,
               last_error := some error_message }
    else k
  let matched : Nat :=
    (s.jobs.filter fun k =>
      decide (k.id = job.id) && decide (k.status = JobStatus.running)).length
  (matched = 1, { jobs := updated })

/-- `DownloadWorkerEngine._handle_job_error` (job_queue.py:658-678). On a stop
request the job is canceled. On a retryable error with remaining budget the job
is re-queued for `now + retry_delay_seconds`. On any other error the function
performs no store update: the `mark_failed` call without `retry_at`
(job_queue.py:676-678) sits after the `return` inside the retry branch and is
unreachable, so the job is left as it is. -/
def handle_job_error (s : Store) (job : Job) (error_message : String) (stop_set : Bool)
    (retry_delay_seconds : Nat) (now : Nat) : Store :=
  if stop_set then (mark_canceled s job "canceled" now).2
  else
    let retryable := is_retryable_error error_message.data
    let attempts := job.attempts + 1
    if retryable = true ∧ attempts < job.max_attempts then
      (mark_failed s job error_message (some (now + retry_delay_seconds)) (some attempts) now).2
    else
      s

/-- The trigger `download_jobs_immutable_fields` (job_queue.py:118-132): a
BEFORE UPDATE guard that aborts when `source`, `url`, `media_intent`, or
`COALESCE(output_template, '')` changes; `none` models `RAISE(ABORT, ...)`. -/
def download_jobs_immutable_guard (old new : Job) : Option Job :=
  if old.source ≠ new.source ∨ old.url ≠ new.url ∨
      old.output_template.getD "" ≠ new.output_template.getD "" ∨
      old.media_intent ≠ new.media_intent then
    none
  else
    some new

/-- The identity fields of a job named by the immutability claim. -/
def identityOf (j : Job) : String × String × Option String × String × String :=
  (j.source, j.url, j.output_template, j.media_intent, j.trace_id)

/-- The operations of `DownloadJobStore` that touch rows. -/
inductive StoreOp where
  | claim (source : String) (now : Nat)
  | complete (job : Job) (now : Nat)
  | cancel (job : Job) (reason : String) (now : Nat)
  | fail (job : Job) (error_message : String) (retry_at : Option Nat)
      (attempts : Option Nat) (now : Nat)
  | enq (p : EnqueueParams) (now : Nat)

/-- Apply one store operation (a failed `enqueue` validation leaves the table
unchanged). -/
def applyOp (s : Store) : StoreOp → Store
  | StoreOp.claim source now => (claim_next s source now).2
  | StoreOp.complete job now => (mark_completed s job now).2
  | StoreOp.cancel job reason now => (mark_canceled s job reason now).2
  | StoreOp.fail job e r a now => (mark_failed s job e r a now).2
  | StoreOp.enq p now => (enqueue s p now).getD s

/-- Apply a sequence of store operations in order. -/
def applyOps (s : Store) : List StoreOp → Store
  | [] => s
  | op :: rest => applyOps (applyOp s op) rest

/-! ### Discovery: the per-playlist part of `run_once` (src/engine/core.py) -/

/-- One listed playlist item: its video id (`videoId` or `id`) and the
optional `position` / `playlist_index` field consumed by
`_playlist_sort_key`. -/
structure VideoEntry where
  videoId : String
  position : Option Nat
deriving DecidableEq, Repr

/-- `_playlist_sort_key` (core.py:760-763): the entry's position, 0 when
absent. -/
def playlist_sort_key (e : VideoEntry) : Nat := e.position.getD 0

/-- The subscribe-mode reordering (core.py:2757-2761): when any entry carries
a position, sort by `_playlist_sort_key` descending (Python's stable
`sorted(..., reverse=True)`); otherwise reverse the listing. -/
def subscribe_order (videos : List VideoEntry) : List VideoEntry :=
  if videos.any fun v => v.position.isSome then
    videos.mergeSort fun a b => decide (playlist_sort_key b ≤ playlist_sort_key a)
  else
    videos.reverse

/-- The rows of the `downloads` and `playlist_videos` tables for one playlist:
recorded download ids in insertion order, and the seen-set with its monotonic
`downloaded` latch. -/
structure LibState where
  downloads : List String
  seen : List (String × Bool)
deriving DecidableEq, Repr

/-- The `SELECT video_id FROM downloads WHERE video_id=?` check
(core.py:2828-2829). -/
def is_video_downloaded (st : LibState) (vid : String) : Bool :=
  st.downloads.any fun d => d == vid

/-- `playlist_has_seen` (core.py:723-729). -/
def playlist_has_seen (st : LibState) : Bool := !st.seen.isEmpty

/-- `is_video_seen` (core.py:732-738). -/
def is_video_seen (st : LibState) (vid : String) : Bool :=
  st.seen.any fun p => p.1 == vid

/-- `mark_video_seen` (core.py:741-753): `INSERT OR IGNORE` followed by the
monotonic `downloaded=1` latch. -/
def mark_video_seen (st : LibState) (vid : String) (downloaded : Bool) : LibState :=
  let inserted :=
    if is_video_seen st vid then st.seen else st.seen ++ [(vid, downloaded)]
  let latched :=
    if downloaded then inserted.map fun p => if p.1 == vid then (p.1, true) else p
    else inserted
  { st with seen := latched }

/-- What `run_once` does for one playlist once its listing is available
(core.py:2747-2943), with `preview_only = False` and `dry_run = False`;
`downloadOk` tells whether the download-and-copy of an id succeeds.
The `for entry in videos` loop (core.py:2807-2819) only updates progress
status; the per-item processing after it (core.py:2821-2943) is indented at
playlist level and therefore runs once, with `vid` bound to the last iterated
entry. In subscribe mode an already-seen `vid` hits `break` (core.py:2826); in
full mode an already-downloaded `vid` hits `continue` (core.py:2833); either
way the playlist's processing ends. A successful download-and-copy inserts a
`downloads` row (core.py:2914-2919) and, in subscribe mode, marks the video
downloaded (core.py:2920-2921). -/
def process_playlist (subscribe_mode : Bool) (videos : List VideoEntry)
    (downloadOk : String → Bool) (st : LibState) : LibState :=
  if videos.isEmpty then st
  else
    let ordered := if subscribe_mode then subscribe_order videos else videos
    if subscribe_mode ∧ ¬ playlist_has_seen st = true then
      ordered.foldl (fun acc e => mark_video_seen acc e.videoId false) st
    else
      match ordered.getLast? with
      | none => st
      | some entry =>
          let vid := entry.videoId
          if subscribe_mode ∧ is_video_seen st vid = true then st
          else if ¬ subscribe_mode ∧ is_video_downloaded st vid = true then st
          else if downloadOk vid then
            let st' := { st with downloads := st.downloads ++ [vid] }
            if subscribe_mode then mark_video_seen st' vid true else st'
          else st

/-- A listing entry with no position field. -/
def ventry (s : String) : VideoEntry := { videoId := s, position := none }

/-! ### Executor finalization (YouTubeAdapter.execute, job_queue.py:727-877) -/

/-- The parameter names of `build_output_filename` (core.py:951):
`(meta, video_id, ext, config, music_mode)` — there is no `template_override`
parameter. -/
def build_output_filename_params : List String :=
  ["meta", "video_id", "ext", "config", "music_mode"]

/-- Python call semantics: a keyword argument is accepted only when it names a
parameter of the callee; otherwise the call raises `TypeError`. -/
def call_accepts_kwarg (params : List String) (kw : String) : Bool :=
  params.contains kw

/-- Outcome of the finalization tail of `YouTubeAdapter.execute`. -/
inductive FinalizeResult where
  | completed (final_ext : String)
  | error (message : String)
deriving DecidableEq, Repr

/-- The finalization tail of `YouTubeAdapter.execute` (job_queue.py:781-868)
for one claimed job: with no local file it raises `RuntimeError`
(job_queue.py:781-782); otherwise it calls
`build_output_filename(..., template_override=job.output_template)`
(job_queue.py:785-792). `build_output_filename` has no `template_override`
parameter, so in Python this call raises `TypeError` before the final name is
computed; the `os.replace` move and `mark_completed` that follow are never
reached. -/
def yt_adapter_finalize (_job : Job) (local_file : Option String) : FinalizeResult :=
  match local_file with
  | none => FinalizeResult.error "yt-dlp download failed"
  | some f =>
      if call_accepts_kwarg build_output_filename_params "template_override" then
        FinalizeResult.completed f
      else
        FinalizeResult.error
          "TypeError: build_output_filename() got an unexpected keyword argument: template_override"

/-! ### Filename sanitization (core.py:821-834) -/

/-- The characters removed by the regex `[\\/:*?\x22<>|]+` (core.py:825). -/
def forbidden_chars : List Char := ['\\', '/', ':', '*', '?', '"', '<', '>', '|']

/-- The characters Python's `\s` matches on `str` (also stripped by
`str.strip` / `str.rstrip`): ASCII whitespace, the C0 separators 0x1C-0x1F,
NEL, NBSP and the Unicode space separators. -/
def is_py_space (c : Char) : Bool :=
  decide (c.val = 32 ∨ (9 ≤ c.val ∧ c.val ≤ 13) ∨ (28 ≤ c.val ∧ c.val ≤ 31) ∨
    c.val = 0x85 ∨ c.val = 0xa0 ∨ c.val = 0x1680 ∨
    (0x2000 ≤ c.val ∧ c.val ≤ 0x200a) ∨ c.val = 0x2028 ∨ c.val = 0x2029 ∨
    c.val = 0x202f ∨ c.val = 0x205f ∨ c.val = 0x3000)

/-- `re.sub(r"[\\/:*?\x22<>|]+", "", name)`: drop every forbidden character. -/
def remove_forbidden (s : Msg) : Msg := s.filter fun c => !forbidden_chars.contains c

/-- `re.sub(r"\s+", " ", name)`: replace each maximal whitespace run by one
space. `inRun` records whether the previous character belonged to a run. -/
def collapse_ws_aux (inRun : Bool) : Msg → Msg
  | [] => []
  | c :: rest =>
      if is_py_space c then
        if inRun then collapse_ws_aux true rest
        else ' ' :: collapse_ws_aux true rest
      else c :: collapse_ws_aux false rest

/-- `re.sub(r"\s+", " ", name)`: replace each maximal whitespace run by one
space. -/
def collapse_ws (s : Msg) : Msg := collapse_ws_aux false s

/-- `str.lstrip()` over the whitespace class. -/
def lstrip_ws (s : Msg) : Msg := s.dropWhile is_py_space

/-- `str.rstrip()` over the whitespace class. -/
def rstrip_ws (s : Msg) : Msg := (s.reverse.dropWhile is_py_space).reverse

/-- `str.strip()` over the whitespace class. -/
def strip_ws (s : Msg) : Msg := rstrip_ws (lstrip_ws s)

/-- `unicodedata.normalize("NFC", name)` (core.py:827-829), modelled as the
identity function: NFC is the identity on ASCII strings, and every concrete
input evaluated in this development is ASCII. -/
def nfc_normalize (s : Msg) : Msg := s

/-- `sanitize_for_filesystem(name, maxlen=180)` (core.py:821-834): remove the
forbidden characters, collapse and strip whitespace, NFC-normalize, and trim
to `maxlen` codepoints (right-stripping after the cut). -/
def sanitize_for_filesystem (name : Msg) (maxlen : Nat) : Msg :=
  if name.isEmpty then []
  else
    let n1 := remove_forbidden name
    let n2 := strip_ws (collapse_ws n1)
    let n3 := nfc_normalize n2
    if maxlen < n3.length then rstrip_ws (n3.take maxlen) else n3

/-- Control characters: the C0 range (with DEL) and the C1 range. -/
def is_control_char (c : Char) : Bool :=
  decide (c.val < 32 ∨ (127 ≤ c.val ∧ c.val ≤ 159))

/-! ### Search scoring (src/engine/search_scoring.py) -/

/-- `_PENALTY_TERMS` (search_scoring.py:17). -/
def penaltyTerms : List String :=
  ["cover", "tribute", "karaoke", "reaction", "8d", "nightcore", "slowed"]

/-- `_LIVE_TERMS` (search_scoring.py:18). -/
def liveTerms : List String := ["live"]

/-- `_REMASTER_TERMS` (search_scoring.py:19). -/
def remasterTerms : List String := ["remaster", "remastered"]

/-- The token-set overlap `len(set(target) & set(candidate))`. -/
def token_overlap (target candidate : List String) : Nat :=
  (target.dedup.filter fun t => candidate.dedup.contains t).length

/-- `token_similarity` (search_scoring.py:63-69):
`|target ∩ candidate| / max(|target|, |candidate|)` over the token sets, `0`
when either token list is empty. -/
def token_similarity (target candidate : List String) : ℚ :=
  if target.isEmpty ∨ candidate.isEmpty then 0
  else
    (token_overlap target candidate : ℚ) /
      ((max target.dedup.length candidate.dedup.length : Nat) : ℚ)

/-- `duration_score` (search_scoring.py:72-84). -/
def duration_score (target candidate : Option Int) : ℚ :=
  match target, candidate with
  | some t, some c =>
      let delta := (t - c).natAbs
      if delta ≤ 2 then 1
      else if delta ≤ 5 then 9/10
      else if delta ≤ 10 then 3/4
      else if delta ≤ 20 then 1/2
      else 1/5
  | _, _ => 3/5

/-- `_has_terms` (search_scoring.py:87-88): the token list meets the term
set. -/
def has_terms (tokens terms : List String) : Bool :=
  tokens.any fun t => terms.contains t

/-- `_penalty_multiplier` (search_scoring.py:91-101). -/
def penalty_multiplier (target_track_tokens candidate_tokens : List String)
    (artist_score : ℚ) : ℚ :=
  (if has_terms candidate_tokens penaltyTerms = true ∧
      ¬ has_terms target_track_tokens penaltyTerms = true then (1 : ℚ)/10 else 1) *
  (if has_terms candidate_tokens liveTerms ≠ has_terms target_track_tokens liveTerms
   then (85 : ℚ)/100 else 1) *
  (if has_terms candidate_tokens remasterTerms ≠ has_terms target_track_tokens remasterTerms
   then (92 : ℚ)/100 else 1) *
  (if artist_score < 1/2 then (1 : ℚ)/2 else 1)

/-- `clamp01` (search_scoring.py:55-60). -/
def clamp01 (v : ℚ) : ℚ := if v < 0 then 0 else if 1 < v then 1 else v

/-- A search target, already tokenized: the token lists `tokenize` produces
from the artist/track/album fields, plus `duration_hint_sec`. -/
structure ScoreTarget where
  artistTokens : List String
  trackTokens : List String
  albumTokens : List String
  duration : Option Int
deriving DecidableEq, Repr

/-- A candidate, already tokenized: `artistTokens` from `artist or uploader`,
`trackTokens` from `track or title`, `titleTokens` from `title`, plus
`duration_sec`. -/
structure ScoreCandidate where
  artistTokens : List String
  trackTokens : List String
  albumTokens : List String
  titleTokens : List String
  duration : Option Int
deriving DecidableEq, Repr

/-- `score_candidate` (search_scoring.py:104-158) after tokenization: weighted
sum (artist 0.30, track 0.35, album 0.15, duration 0.15, bonus 0.05 with bonus
always 0), clamped to [0,1], times `source_modifier` times the penalty
multiplier. The penalty tokens are `set(track) | set(title)` — only membership
is consumed, modelled by concatenation. -/
def score_candidate (t : ScoreTarget) (c : ScoreCandidate) (source_modifier : ℚ) : ℚ :=
  let score_artist := token_similarity t.artistTokens c.artistTokens
  let score_track :=
    if ¬ t.trackTokens.isEmpty = true then token_similarity t.trackTokens c.trackTokens
    else (3 : ℚ)/5
  let score_album :=
    if ¬ t.albumTokens.isEmpty = true ∧ ¬ c.albumTokens.isEmpty = true then
      token_similarity t.albumTokens c.albumTokens
    else (3 : ℚ)/5
  let score_duration := duration_score t.duration c.duration
  let weighted :=
    3/10 * score_artist + 35/100 * score_track + 15/100 * score_album +
      15/100 * score_duration + 5/100 * 0
  let penalty_tokens := c.trackTokens ++ c.titleTokens
  clamp01 weighted * source_modifier *
    penalty_multiplier t.trackTokens penalty_tokens score_artist

/-! ### Downtime window (core.py:267-313) -/

/-- `_in_downtime(now, start, end)` (core.py:267-282) with instants as minutes
since local midnight of the current day (`datetime.replace` keeps the day);
1440 minutes is one day. Returns whether the window is active and, when it is,
the `next_allowed` end instant. -/
def in_downtime (now start e : Int) : Bool × Option Int :=
  if start ≤ e then
    if start ≤ now ∧ now < e then (true, some e) else (false, none)
  else if start ≤ now then (true, some (e + 1440))
  else if now < e then (true, some e)
  else (false, none)

/-- The sleep slice `_await_downtime_end` computes per iteration
(core.py:307-310): the entire remaining time to `next_allowed` when the end is
known, otherwise 60 seconds. -/
def downtime_sleep_seconds (next_allowed : Option Int) (now : Int) : Int :=
  match next_allowed with
  | some t => max 0 (t - now)
  | none => 60

/-- `_await_downtime_end` (core.py:296-313) as a fuelled loop: `policy` is
`_watch_policy_downtime(config)` sampled at the current time, `stop` the stop
event; each iteration checks the stop event, sleeps its slice, and re-samples.
Returns the instant at which the wait returns (`none` when the fuel runs
out). -/
def await_downtime_end (policy : Int → Bool × Option Int) (stop : Int → Bool) :
    Nat → Int → Option Int
  | 0, _ => none
  | fuel + 1, t =>
      if ¬ (policy t).1 = true then some t
      else if stop t then some t
      else await_downtime_end policy stop fuel (t + downtime_sleep_seconds (policy t).2 t)

/-! ### Concrete fixtures -/

/-- A claimed (running) job, as left by `claim_next`. -/
def sampleRunningJob : Job :=
  { id := "job-1", origin := "playlist", origin_id := "PL1", media_type := "video",
    media_intent := "playlist", source := "youtube", url := "https://example.com/a",
    output_template := none, output_dir := "/library", status := JobStatus.running,
    queued := some 0, running := some 1, completed := none, failed := none,
    canceled := none, attempts := 0, max_attempts := 3, created_at := 0,
    updated_at := 1, last_error := none, trace_id := "trace-1" }

/-- A store holding just `sampleRunningJob`. -/
def sampleStore : Store := { jobs := [sampleRunningJob] }

/-- The same running job with its retry budget exhausted (`max_attempts = 1`). -/
def exhaustedJob : Job := { sampleRunningJob with max_attempts := 1 }

/-- A store holding just `exhaustedJob`. -/
def exhaustedStore : Store := { jobs := [exhaustedJob] }

/-- A queued job enqueued first (smaller `queued` and `created_at`). -/
def jobA : Job :=
  { sampleRunningJob with
    id := "job-A"
    trace_id := "trace-A"
    status := JobStatus.queued
    queued := some 1
    created_at := 1
    running := none
    updated_at := 1 }

/-- A queued job enqueued second, same source as `jobA`. -/
def jobB : Job :=
  { sampleRunningJob with
    id := "job-B"
    trace_id := "trace-B"
    status := JobStatus.queued
    queued := some 2
    created_at := 2
    running := none
    updated_at := 2 }

/-- A store holding `jobA` then `jobB`. -/
def fifoStore : Store := { jobs := [jobA, jobB] }

/-- A search target: artist "a", track "song extra zzz", album "alb",
duration 100 s. -/
def c8target : ScoreTarget :=
  { artistTokens := ["a"], trackTokens := ["song", "extra", "zzz"],
    albumTokens := ["alb"], duration := some 100 }

/-- A candidate whose track tokens overlap the target's in one token. -/
def c8cand1 : ScoreCandidate :=
  { artistTokens := ["a"], trackTokens := ["song", "x", "y"],
    albumTokens := ["alb"], titleTokens := [], duration := some 100 }

/-- The same candidate with a two-token track overlap — gained by swapping in
"extra" and "live". -/
def c8cand2 : ScoreCandidate := { c8cand1 with trackTokens := ["song", "extra", "live"] }

/-! ### Theorems -/

/-- Claim C10 — retry-classifier precedence: `_is_retryable_error` returns `false`
on the empty message, and returns `true` exactly when no fatal substring occurs
in the lowered message and at least one retryable substring does; in particular a
fatal substring forces `false` even when a retryable substring is also present. -/
theorem is_retryable_error_precedence :
    is_retryable_error [] = false ∧
    ∀ msg : Msg,
      is_retryable_error msg = true ↔
        (∀ t ∈ nonRetryableTokens, ¬ t <:+: pyLower msg) ∧
          ∃ t ∈ retryableTokens, t <:+: pyLower msg := by
  constructor
  · rfl
  · intro msg
    constructor
    · intro h
      unfold is_retryable_error containsToken at h
      by_cases h1 : msg.isEmpty = true
      · rw [if_pos h1] at h; cases h
      · rw [if_neg h1] at h
        by_cases h2 : (nonRetryableTokens.any fun t => decide (t <:+: pyLower msg)) = true
        · rw [if_pos h2] at h; cases h
        · rw [if_neg h2] at h
          refine ⟨?_, ?_⟩
          · intro t ht hinf
            exact h2 (by simp only [List.any_eq_true, decide_eq_true_eq]; exact ⟨t, ht, hinf⟩)
          · simpa only [List.any_eq_true, decide_eq_true_eq] using h
    · rintro ⟨hno, t, ht, hinf⟩
      unfold is_retryable_error containsToken
      by_cases h1 : msg.isEmpty = true
      · exfalso
        have hnil : pyLower msg = [] := by
          unfold pyLower
          simp [List.isEmpty_iff.mp h1]
        rw [hnil] at hinf
        have := List.eq_nil_of_infix_nil hinf
        subst this
        revert ht
        decide
      · rw [if_neg h1]
        show (if (nonRetryableTokens.any fun t => decide (t <:+: pyLower msg)) = true
            then false else retryableTokens.any fun t => decide (t <:+: pyLower msg)) = true
        have h2 : (nonRetryableTokens.any fun t => decide (t <:+: pyLower msg)) = false := by
          simp only [List.any_eq_false, decide_eq_true_eq]
          intro u hu
          exact hno u hu
        rw [h2]
        simp only [Bool.false_eq_true, if_false, List.any_eq_true, decide_eq_true_eq]
        exact ⟨t, ht, hinf⟩

/-- Claim C1 — retry semantics of the worker engine. On a retryable error with
budget left (`attempts+1 < max_attempts`) the running job goes back to `queued`
with `queued_at = now + retry_delay_seconds` and `attempts` incremented, as
claimed. But on a fatal error ("private video"), and likewise on a retryable
error with exhausted budget, `_handle_job_error` leaves the job in `running`
instead of transitioning it to the terminal `failed` status: the non-retry
`mark_failed` call (job_queue.py:676) is dead code placed after the `return`
of the retry branch. -/
theorem handle_job_error_dead_fatal_path :
    handle_job_error sampleStore sampleRunningJob "ERROR: private video" false 30 100 =
      sampleStore ∧
    handle_job_error exhaustedStore exhaustedJob "Read timeout" false 30 100 =
      exhaustedStore ∧
    handle_job_error sampleStore sampleRunningJob "connection reset by peer" false 30 100 =
      { jobs := [{ sampleRunningJob with
          status := JobStatus.queued, queued := some 130, attempts := 1,
          updated_at := 100, last_error := some "connection reset by peer" }] } :=
  ⟨rfl, rfl, rfl⟩

/-- Mapping a job through an update that only touches non-identity fields keeps
its id and identity. -/
theorem exists_identity_of_map (l : List Job) (f : Job → Job)
    (hf : ∀ k, (f k).id = k.id ∧ identityOf (f k) = identityOf k)
    (j : Job) (hj : j ∈ l) :
    ∃ j' ∈ l.map f, j'.id = j.id ∧ identityOf j' = identityOf j :=
  ⟨f j, List.mem_map_of_mem f hj, (hf j).1, (hf j).2⟩

/-- Each store operation preserves the id and identity fields of every stored
job. -/
theorem applyOp_preserves_identity (op : StoreOp) (s : Store) (j : Job) (hj : j ∈ s.jobs) :
    ∃ j' ∈ (applyOp s op).jobs, j'.id = j.id ∧ identityOf j' = identityOf j := by
  cases op with
  | claim source now =>
      show ∃ j' ∈ (claim_next s source now).2.jobs, j'.id = j.id ∧ identityOf j' = identityOf j
      unfold claim_next
      cases hsel : selectMin (s.jobs.filter (eligible source now)) with
      | none => exact ⟨j, hj, rfl, rfl⟩
      | some row =>
          dsimp only
          split
          · exact exists_identity_of_map _ _
              (fun k => by split <;> exact ⟨rfl, rfl⟩) j hj
          · exact exists_identity_of_map _ _
              (fun k => by split <;> exact ⟨rfl, rfl⟩) j hj
  | complete job now =>
      exact exists_identity_of_map _ _
        (fun k => by split <;> exact ⟨rfl, rfl⟩) j hj
  | cancel job reason now =>
      exact exists_identity_of_map _ _
        (fun k => by split <;> exact ⟨rfl, rfl⟩) j hj
  | fail job e r a now =>
      exact exists_identity_of_map _ _
        (fun k => by split <;> exact ⟨rfl, rfl⟩) j hj
  | enq p now =>
      show ∃ j' ∈ ((enqueue s p now).getD s).jobs, j'.id = j.id ∧ identityOf j' = identityOf j
      unfold enqueue
      split
      · exact ⟨j, List.mem_append_left _ hj, rfl, rfl⟩
      · exact ⟨j, hj, rfl, rfl⟩

/-- Store-operation sequences preserve the id and identity fields of every
stored job. -/
theorem applyOps_preserves_identity :
    ∀ (ops : List StoreOp) (s : Store) (j : Job), j ∈ s.jobs →
      ∃ j' ∈ (applyOps s ops).jobs, j'.id = j.id ∧ identityOf j' = identityOf j := by
  intro ops
  induction ops with
  | nil => exact fun s j hj => ⟨j, hj, rfl, rfl⟩
  | cons op rest ih =>
      intro s j hj
      rcases applyOp_preserves_identity op s j hj with ⟨j', hj', hid, hident⟩
      rcases ih (applyOp s op) j' hj' with ⟨j'', hj'', hid', hident'⟩
      exact ⟨j'', hj'', hid'.trans hid, hident'.trans hident⟩

/-- Claim C5 (amended) — job identity immutability: across any sequence of
enqueue / claim_next / mark_completed / mark_canceled / mark_failed
operations, the `source`, `url`, `output_template`, `media_intent` and
`trace_id` of a stored job never change from their insert values; and the
storage trigger rejects any update that changes `source`, `url` or
`media_intent`, or that changes `output_template` other than between NULL and
the empty string (the trigger compares through `COALESCE(output_template, '')`). -/
theorem job_identity_immutable :
    (∀ (ops : List StoreOp) (s : Store) (j : Job), j ∈ s.jobs →
      ∃ j' ∈ (applyOps s ops).jobs, j'.id = j.id ∧ identityOf j' = identityOf j) ∧
    (∀ old new : Job, download_jobs_immutable_guard old new = some new →
      old.source = new.source ∧ old.url = new.url ∧ old.media_intent = new.media_intent ∧
      old.output_template.getD "" = new.output_template.getD "") ∧
    (∀ old new : Job,
      (old.source ≠ new.source ∨ old.url ≠ new.url ∨ old.media_intent ≠ new.media_intent ∨
        old.output_template.getD "" ≠ new.output_template.getD "") →
      download_jobs_immutable_guard old new = none) := by
  refine ⟨applyOps_preserves_identity, ?_, ?_⟩
  · intro old new h
    unfold download_jobs_immutable_guard at h
    split_ifs at h with hc
    push_neg at hc
    exact ⟨hc.1, hc.2.1, hc.2.2.2, hc.2.2.1⟩
  · intro old new h
    unfold download_jobs_immutable_guard
    rw [if_pos]
    tauto

/-- Witness for the identity-immutability theorem at a concrete store and
operation sequence. -/
theorem job_identity_immutable_witness :
    ∃ j' ∈ (applyOps sampleStore
        [StoreOp.fail sampleRunningJob "timeout" none none 6,
         StoreOp.claim "youtube" 7]).jobs,
      j'.id = sampleRunningJob.id ∧ identityOf j' = identityOf sampleRunningJob :=
  job_identity_immutable.1 _ sampleStore sampleRunningJob (by simp [sampleStore])

/-- Claim C5, counterexample: the immutability trigger accepts an update that
changes `output_template` from NULL to the empty string, because it compares
the field through `COALESCE(output_template, '')` (job_queue.py:126); so not
every update that changes `output_template` is rejected at the storage
layer. -/
theorem immutable_guard_accepts_template_change :
    download_jobs_immutable_guard sampleRunningJob
        { sampleRunningJob with output_template := some "" } =
      some { sampleRunningJob with output_template := some "" } ∧
    sampleRunningJob.output_template ≠
      ({ sampleRunningJob with output_template := some "" } : Job).output_template :=
  ⟨rfl, by simp [sampleRunningJob]⟩

/-- `keyLe` is reflexive. -/
theorem keyLe_refl (a : Nat × Nat) : keyLe a a := Or.inr ⟨rfl, Nat.le_refl _⟩

/-- `keyLt` implies `keyLe`. -/
theorem keyLt_to_le {a b : Nat × Nat} (h : keyLt a b) : keyLe a b := by
  unfold keyLt at h; unfold keyLe; omega

/-- `keyLe` is transitive. -/
theorem keyLe_trans {a b c : Nat × Nat} (h1 : keyLe a b) (h2 : keyLe b c) : keyLe a c := by
  unfold keyLe at *; omega

/-- Totality: a failed strict comparison yields the reverse comparison. -/
theorem keyLe_of_not_lt {a b : Nat × Nat} (h : ¬ keyLt a b) : keyLe b a := by
  unfold keyLt at h; unfold keyLe; omega

/-- `selectMinAux` returns its accumulator or an element of the list. -/
theorem selectMinAux_mem (best : Job) (l : List Job) :
    selectMinAux best l = best ∨ selectMinAux best l ∈ l := by
  induction l generalizing best with
  | nil => exact Or.inl rfl
  | cons k rest ih =>
      unfold selectMinAux
      split
      · rcases ih k with h | h
        · refine Or.inr ?_
          rw [h]
          exact List.mem_cons_self k rest
        · exact Or.inr (List.mem_cons_of_mem _ h)
      · rcases ih best with h | h
        · exact Or.inl h
        · exact Or.inr (List.mem_cons_of_mem _ h)

/-- `selectMinAux` returns a key-minimal element. -/
theorem selectMinAux_min (best : Job) (l : List Job) :
    keyLe (claimKey (selectMinAux best l)) (claimKey best) ∧
    ∀ k ∈ l, keyLe (claimKey (selectMinAux best l)) (claimKey k) := by
  induction l generalizing best with
  | nil => exact ⟨keyLe_refl _, fun k hk => absurd hk (List.not_mem_nil k)⟩
  | cons k rest ih =>
      unfold selectMinAux
      split
      · rename_i hlt
        rcases ih k with ⟨h1, h2⟩
        refine ⟨keyLe_trans h1 (keyLt_to_le hlt), ?_⟩
        intro m hm
        rcases List.mem_cons.mp hm with rfl | hm'
        · exact h1
        · exact h2 m hm'
      · rename_i hnlt
        rcases ih best with ⟨h1, h2⟩
        refine ⟨h1, ?_⟩
        intro m hm
        rcases List.mem_cons.mp hm with rfl | hm'
        · exact keyLe_trans h1 (keyLe_of_not_lt hnlt)
        · exact h2 m hm'

/-- `selectMin` returns `none` exactly on the empty list. -/
theorem selectMin_eq_none {l : List Job} : selectMin l = none ↔ l = [] := by
  cases l <;> simp [selectMin]

/-- A row returned by `selectMin` is a key-minimal element of the list. -/
theorem selectMin_spec {l : List Job} {r : Job} (h : selectMin l = some r) :
    r ∈ l ∧ ∀ k ∈ l, keyLe (claimKey r) (claimKey k) := by
  cases l with
  | nil => cases h
  | cons j rest =>
      have hr : selectMinAux j rest = r := by
        simpa [selectMin] using h
      subst hr
      rcases selectMinAux_min j rest with ⟨h1, h2⟩
      constructor
      · rcases selectMinAux_mem j rest with hm | hm
        · rw [hm]; exact List.mem_cons_self j rest
        · exact List.mem_cons_of_mem _ hm
      · intro k hk
        rcases List.mem_cons.mp hk with rfl | hk'
        · exact h1
        · exact h2 k hk'

/-- Under unique ids, the rows matched by `claim_next`'s UPDATE
(`WHERE id=? AND status='queued'`) are exactly the selected row. -/
theorem filter_id_status_singleton (l : List Job) (hnd : (l.map Job.id).Nodup)
    (row : Job) (hrow : row ∈ l) (hq : row.status = JobStatus.queued) :
    (l.filter fun k => decide (k.id = row.id) && decide (k.status = JobStatus.queued)) =
      [row] := by
  induction l with
  | nil => cases hrow
  | cons a rest ih =>
      rw [List.map_cons, List.nodup_cons] at hnd
      rcases List.mem_cons.mp hrow with rfl | hmem
      · have hone :
            (rest.filter fun k =>
              decide (k.id = row.id) && decide (k.status = JobStatus.queued)) = [] := by
          rw [List.filter_eq_nil_iff]
          intro k hk
          simp only [Bool.and_eq_true, decide_eq_true_eq, not_and]
          intro hid _
          exact absurd (hid ▸ List.mem_map_of_mem Job.id hk) hnd.1
        have hpa :
            (decide (row.id = row.id) && decide (row.status = JobStatus.queued)) = true := by
          simp [hq]
        rw [List.filter_cons, if_pos hpa, hone]
      · have hne : a.id ≠ row.id := by
          intro he
          exact hnd.1 (he ▸ List.mem_map_of_mem Job.id hmem)
        have hpa :
            (decide (a.id = row.id) && decide (a.status = JobStatus.queued)) = false := by
          simp [hne]
        rw [List.filter_cons, if_neg (by simp [hpa])]
        exact ih hnd.2 hmem

/-- Claim C6 — FIFO claim per source: with unique job ids, `claim_next`
returns `none` exactly when no job of the source is claimable, and otherwise
selects an eligible row with lexicographically minimal `(queued, created_at)`,
flips exactly that row to `running`, and returns it; consequently a job A
enqueued before a job B of the same source (earlier `created_at`, no later
`queued`) is never claimed after B. -/
theorem claim_next_fifo (s : Store) (source : String) (now : Nat)
    (hnd : (s.jobs.map Job.id).Nodup) :
    ((claim_next s source now).1 = none →
      (claim_next s source now).2 = s ∧ ∀ j ∈ s.jobs, eligible source now j = false) ∧
    (∀ jret, (claim_next s source now).1 = some jret →
      ∃ row ∈ s.jobs, eligible source now row = true ∧ jret = claimed_row row now ∧
        (∀ k ∈ s.jobs, eligible source now k = true → keyLe (claimKey row) (claimKey k)) ∧
        (claim_next s source now).2.jobs = s.jobs.map fun k =>
          if k.id = row.id ∧ k.status = JobStatus.queued then run_row k now else k) ∧
    (∀ A B, A ∈ s.jobs → B ∈ s.jobs → eligible source now A = true →
      eligible source now B = true → A.created_at < B.created_at →
      queuedKey A.queued ≤ queuedKey B.queued →
      (claim_next s source now).1 ≠ some (claimed_row B now)) := by
  cases hsel : selectMin (s.jobs.filter (eligible source now)) with
  | none =>
      have hfil : s.jobs.filter (eligible source now) = [] := selectMin_eq_none.mp hsel
      have hclaim : claim_next s source now = (none, s) := by
        unfold claim_next; rw [hsel]
      refine ⟨?_, ?_, ?_⟩
      · intro _
        refine ⟨by rw [hclaim], ?_⟩
        intro j hj
        by_contra hne
        have hel : eligible source now j = true := by
          cases hb : eligible source now j
          · exact absurd hb hne
          · rfl
        have : j ∈ s.jobs.filter (eligible source now) := List.mem_filter.mpr ⟨hj, hel⟩
        rw [hfil] at this
        cases this
      · intro jret h
        rw [hclaim] at h
        cases h
      · intro A B hA hB heA heB _ _ h
        have : A ∈ s.jobs.filter (eligible source now) := List.mem_filter.mpr ⟨hA, heA⟩
        rw [hfil] at this
        cases this
  | some row =>
      obtain ⟨hrowmem, hmin⟩ := selectMin_spec hsel
      have hrow_in : row ∈ s.jobs := (List.mem_filter.mp hrowmem).1
      have hrow_el : eligible source now row = true := (List.mem_filter.mp hrowmem).2
      have hrow_q : row.status = JobStatus.queued := by
        have h := hrow_el
        unfold eligible at h
        simp only [Bool.and_eq_true, decide_eq_true_eq] at h
        exact h.1.1
      have hmatched :
          (s.jobs.filter fun k =>
            decide (k.id = row.id) && decide (k.status = JobStatus.queued)).length = 1 := by
        rw [filter_id_status_singleton s.jobs hnd row hrow_in hrow_q]
        rfl
      have hclaim : claim_next s source now =
          (some (claimed_row row now),
           { jobs := s.jobs.map fun k =>
              if k.id = row.id ∧ k.status = JobStatus.queued then run_row k now else k }) := by
        unfold claim_next
        rw [hsel]
        dsimp only
        rw [if_pos hmatched]
      refine ⟨?_, ?_, ?_⟩
      · intro h
        rw [hclaim] at h
        cases h
      · intro jret h
        rw [hclaim] at h
        refine ⟨row, hrow_in, hrow_el, (Option.some.inj h).symm, ?_, ?_⟩
        · intro k hk hke
          exact hmin k (List.mem_filter.mpr ⟨hk, hke⟩)
        · rw [hclaim]
      · intro A B hA hB heA heB hcreated hqk h
        rw [hclaim] at h
        have hBeq : claimed_row row now = claimed_row B now := Option.some.inj h
        have h1 := congrArg Job.queued hBeq
        have h2 := congrArg Job.created_at hBeq
        simp only [claimed_row] at h1 h2
        have hminA := hmin A (List.mem_filter.mpr ⟨hA, heA⟩)
        unfold keyLe at hminA
        unfold claimKey at hminA
        rw [h1, h2] at hminA
        omega

/-- Witness for the FIFO theorem: with two queued jobs for the same source,
the one enqueued later is not the one claimed. -/
theorem claim_next_fifo_witness :
    (claim_next fifoStore "youtube" 10).1 ≠ some (claimed_row jobB 10) :=
  (claim_next_fifo fifoStore "youtube" 10 (by decide)).2.2 jobA jobB
    (by decide) (by decide) (by decide) (by decide) (by decide) (by decide)

/-- Claim C2 — full-mode discovery. For a playlist in mode "full" with listing
[V1, V2] and an empty downloads table, one run records a download only for V2:
the per-item processing (core.py:2821-2943) is dedented out of the
`for entry in videos` loop (core.py:2807-2819), so only the last listed item
is ever considered. The claim says both V1 and V2 are downloaded and
recorded. -/
theorem full_mode_processes_only_last_item :
    (process_playlist false [ventry "V1", ventry "V2"] (fun _ => true)
        { downloads := [], seen := [] }).downloads = ["V2"] ∧
    (process_playlist false [ventry "V1", ventry "V2"] (fun _ => true)
        { downloads := [], seen := [] }).downloads ≠ ["V1", "V2"] := by
  exact ⟨rfl, by decide⟩

/-- Claim C3 — subscribe-mode cutoff. For a playlist already observed with
items [a, b, c], a run observing [d, e, a, b, c] (newest-first, no position
fields) records a download only for d: the listing is first reversed
(core.py:2757-2761), and the per-item scan after the dedented status loop runs
once with the last entry (d), so e is never considered. The claim says exactly
{d, e} are downloaded, in that order. -/
theorem subscribe_mode_processes_only_last_item :
    (process_playlist true
        [ventry "d", ventry "e", ventry "a", ventry "b", ventry "c"]
        (fun _ => true)
        { downloads := [], seen := [("a", false), ("b", false), ("c", false)] }).downloads
      = ["d"] ∧
    (process_playlist true
        [ventry "d", ventry "e", ventry "a", ventry "b", ventry "c"]
        (fun _ => true)
        { downloads := [], seen := [("a", false), ("b", false), ("c", false)] }).downloads
      ≠ ["d", "e"] := by
  exact ⟨rfl, by decide⟩

set_option maxRecDepth 4096 in
/-- Claim C4 — executor finalization. For every claimed job whose download
step yields a local file, the finalization tail of `YouTubeAdapter.execute`
raises `TypeError`: the call at job_queue.py:785-792 passes
`template_override=job.output_template`, but `build_output_filename`
(core.py:951) has no `template_override` parameter. The artifact is therefore
never moved into `output_dir` and the job is never marked completed; the
TypeError message is classified non-retryable by `_is_retryable_error`. -/
theorem yt_adapter_finalize_type_error :
    yt_adapter_finalize sampleRunningJob (some "video.webm") =
      FinalizeResult.error
        "TypeError: build_output_filename() got an unexpected keyword argument: template_override" ∧
    call_accepts_kwarg build_output_filename_params "template_override" = false ∧
    (∀ (job : Job) (f : String), ∃ msg,
      yt_adapter_finalize job (some f) = FinalizeResult.error msg) ∧
    is_retryable_error
      "TypeError: build_output_filename() got an unexpected keyword argument: template_override".data
      = false := by
  refine ⟨rfl, rfl, fun job f => ⟨_, rfl⟩, by decide⟩

/-- Members of a collapsed string are spaces or members of the input. -/
theorem mem_collapse_ws_aux :
    ∀ (s : Msg) (b : Bool) (c : Char), c ∈ collapse_ws_aux b s → c = ' ' ∨ c ∈ s := by
  intro s
  induction s with
  | nil => intro b c h; cases h
  | cons a rest ih =>
      intro b c h
      rw [collapse_ws_aux] at h
      by_cases ha : is_py_space a
      · rw [if_pos ha] at h
        cases b with
        | true =>
            rw [if_pos rfl] at h
            rcases ih true c h with h' | h'
            · exact Or.inl h'
            · exact Or.inr (List.mem_cons_of_mem _ h')
        | false =>
            rw [if_neg (by simp)] at h
            rcases List.mem_cons.mp h with rfl | h'
            · exact Or.inl rfl
            · rcases ih true c h' with h'' | h''
              · exact Or.inl h''
              · exact Or.inr (List.mem_cons_of_mem _ h'')
      · rw [if_neg ha] at h
        rcases List.mem_cons.mp h with rfl | h'
        · exact Or.inr (List.mem_cons_self _ _)
        · rcases ih false c h' with h'' | h''
          · exact Or.inl h''
          · exact Or.inr (List.mem_cons_of_mem _ h'')

/-- Members of a collapsed string are spaces or members of the input. -/
theorem mem_collapse_ws {s : Msg} {c : Char} (h : c ∈ collapse_ws s) : c = ' ' ∨ c ∈ s :=
  mem_collapse_ws_aux s false c h

/-- Right-stripping keeps only members of the input. -/
theorem mem_rstrip_ws {c : Char} {s : Msg} (h : c ∈ rstrip_ws s) : c ∈ s := by
  unfold rstrip_ws at h
  rw [List.mem_reverse] at h
  have h2 := (List.dropWhile_sublist _).subset h
  exact List.mem_reverse.mp h2

/-- Stripping keeps only members of the input. -/
theorem mem_strip_ws {c : Char} {s : Msg} (h : c ∈ strip_ws s) : c ∈ s := by
  unfold strip_ws lstrip_ws at h
  exact (List.dropWhile_sublist _).subset (mem_rstrip_ws h)

/-- Right-stripping does not lengthen a string. -/
theorem length_rstrip_ws_le (s : Msg) : (rstrip_ws s).length ≤ s.length := by
  unfold rstrip_ws
  rw [List.length_reverse]
  calc (s.reverse.dropWhile is_py_space).length
      ≤ s.reverse.length := (List.dropWhile_sublist _).length_le
    _ = s.length := List.length_reverse s

/-- Claim C7 (counterexample): `sanitize_for_filesystem` does not remove
non-whitespace control characters — on input "a\x01b" the output still
contains the control character U+0001, so the output is not control-free as
claimed. -/
theorem sanitize_keeps_control_char :
    sanitize_for_filesystem ['a', '\x01', 'b'] 180 = ['a', '\x01', 'b'] ∧
    (sanitize_for_filesystem ['a', '\x01', 'b'] 180).any is_control_char = true := by
  exact ⟨by decide, by decide⟩

/-- Claim C7 (amended) — filename sanitization: for any input string, the
output of `sanitize_for_filesystem` contains no character from the set
\\/:*?"<>| and has length at most 180 codepoints. (Non-whitespace control
characters may survive; whitespace runs, including whitespace control
characters, are collapsed to single spaces; the NFC normalization step is
modelled as the identity, exact on ASCII.) -/
theorem sanitize_no_forbidden_and_bounded (s : Msg) :
    (∀ c ∈ sanitize_for_filesystem s 180, c ∉ forbidden_chars) ∧
    (sanitize_for_filesystem s 180).length ≤ 180 := by
  unfold sanitize_for_filesystem
  by_cases hs : s.isEmpty
  · rw [if_pos hs]
    exact ⟨fun c hc => absurd hc (List.not_mem_nil c), by simp⟩
  · rw [if_neg hs]
    dsimp only [nfc_normalize]
    constructor
    · intro c hc
      have hmem : c ∈ strip_ws (collapse_ws (remove_forbidden s)) := by
        by_cases hlen : 180 < (strip_ws (collapse_ws (remove_forbidden s))).length
        · rw [if_pos hlen] at hc
          exact List.take_subset _ _ (mem_rstrip_ws hc)
        · rw [if_neg hlen] at hc
          exact hc
      rcases mem_collapse_ws (mem_strip_ws hmem) with rfl | hin
      · decide
      · have := List.mem_filter.mp hin
        intro habs
        have hcontains : forbidden_chars.contains c = true :=
          List.elem_eq_true_of_mem habs
        rw [hcontains] at this
        exact absurd this.2 (by decide)
    · by_cases hlen : 180 < (strip_ws (collapse_ws (remove_forbidden s))).length
      · rw [if_pos hlen]
        calc (rstrip_ws ((strip_ws (collapse_ws (remove_forbidden s))).take 180)).length
            ≤ ((strip_ws (collapse_ws (remove_forbidden s))).take 180).length :=
              length_rstrip_ws_le _
          _ ≤ 180 := by
              rw [List.length_take]
              exact Nat.min_le_left _ _
      · rw [if_neg hlen]
        omega

/-- `score_candidate` unfolded to an explicit formula. -/
theorem score_candidate_eq (t : ScoreTarget) (c : ScoreCandidate) (m : ℚ) :
    score_candidate t c m =
      clamp01 (3/10 * token_similarity t.artistTokens c.artistTokens +
          35/100 * (if ¬ t.trackTokens.isEmpty = true then
              token_similarity t.trackTokens c.trackTokens else (3 : ℚ)/5) +
          15/100 * (if ¬ t.albumTokens.isEmpty = true ∧ ¬ c.albumTokens.isEmpty = true then
              token_similarity t.albumTokens c.albumTokens else (3 : ℚ)/5) +
          15/100 * duration_score t.duration c.duration + 5/100 * 0) * m *
        penalty_multiplier t.trackTokens (c.trackTokens ++ c.titleTokens)
          (token_similarity t.artistTokens c.artistTokens) := rfl

/-- Token similarities are nonnegative. -/
theorem token_similarity_nonneg (t c : List String) : 0 ≤ token_similarity t c := by
  unfold token_similarity
  split
  · exact le_refl 0
  · exact div_nonneg (Nat.cast_nonneg _) (Nat.cast_nonneg _)

/-- `clamp01` is nonnegative. -/
theorem clamp01_nonneg (v : ℚ) : 0 ≤ clamp01 v := by
  unfold clamp01
  split_ifs <;> linarith

/-- `clamp01` is monotone. -/
theorem clamp01_mono {v w : ℚ} (h : v ≤ w) : clamp01 v ≤ clamp01 w := by
  unfold clamp01
  split_ifs <;> linarith

/-- The penalty multiplier is nonnegative. -/
theorem penalty_multiplier_nonneg (a b : List String) (sa : ℚ) :
    0 ≤ penalty_multiplier a b sa := by
  unfold penalty_multiplier
  refine mul_nonneg (mul_nonneg (mul_nonneg ?_ ?_) ?_) ?_ <;> split_ifs <;> norm_num

/-- The penalty multiplier is monotone in the artist score (the only
artist-dependent factor is the halving below 0.5). -/
theorem penalty_multiplier_mono_artist (a b : List String) {sa sa' : ℚ} (h : sa ≤ sa') :
    penalty_multiplier a b sa ≤ penalty_multiplier a b sa' := by
  unfold penalty_multiplier
  refine mul_le_mul_of_nonneg_left ?_ ?_
  · split_ifs <;> linarith
  · refine mul_nonneg (mul_nonneg ?_ ?_) ?_ <;> split_ifs <;> norm_num

/-- Token similarity is monotone in the overlap when the deduplicated
candidate sizes agree. -/
theorem token_similarity_mono_overlap {t a b : List String}
    (hsize : a.dedup.length = b.dedup.length)
    (hov : token_overlap t a ≤ token_overlap t b) :
    token_similarity t a ≤ token_similarity t b := by
  unfold token_similarity
  by_cases ht : t.isEmpty
  · simp [ht]
  · by_cases ha : a.isEmpty
    · have ha' : a = [] := List.isEmpty_iff.mp ha
      subst ha'
      have hb0 : b.dedup.length = 0 := by simpa using hsize.symm
      have hb : b = [] := (List.dedup_eq_nil _).mp (List.length_eq_zero.mp hb0)
      subst hb
      simp
    · have hb : ¬ b.isEmpty = true := by
        intro hb
        apply ha
        have hb' : b = [] := List.isEmpty_iff.mp hb
        subst hb'
        have ha0 : a.dedup.length = 0 := by simpa using hsize
        exact List.isEmpty_iff.mpr ((List.dedup_eq_nil _).mp (List.length_eq_zero.mp ha0))
      rw [if_neg (by simp [ht, ha]), if_neg (by simp [ht, hb])]
      rw [hsize]
      have htne : t.dedup ≠ [] := fun hnil =>
        ht (List.isEmpty_iff.mpr ((List.dedup_eq_nil _).mp hnil))
      have hpos : (0 : ℚ) < ((max t.dedup.length b.dedup.length : Nat) : ℚ) := by
        have h2 : 0 < t.dedup.length := List.length_pos.mpr htne
        exact_mod_cast lt_of_lt_of_le h2 (le_max_left _ _)
      exact (div_le_div_iff_of_pos_right hpos).mpr (Nat.cast_le.mpr hov)

/-- Monotonicity of the final score in the artist overlap. -/
theorem score_candidate_mono_artist (t : ScoreTarget) (c c' : ScoreCandidate) (m : ℚ)
    (hm : 0 ≤ m)
    (htr : c'.trackTokens = c.trackTokens) (hal : c'.albumTokens = c.albumTokens)
    (hti : c'.titleTokens = c.titleTokens) (hdu : c'.duration = c.duration)
    (hsize : c'.artistTokens.dedup.length = c.artistTokens.dedup.length)
    (hov : token_overlap t.artistTokens c.artistTokens ≤
      token_overlap t.artistTokens c'.artistTokens) :
    score_candidate t c m ≤ score_candidate t c' m := by
  rw [score_candidate_eq, score_candidate_eq, htr, hal, hti, hdu]
  have hsa : token_similarity t.artistTokens c.artistTokens ≤
      token_similarity t.artistTokens c'.artistTokens :=
    token_similarity_mono_overlap hsize.symm hov
  refine mul_le_mul (mul_le_mul_of_nonneg_right (clamp01_mono (by linarith)) hm)
    (penalty_multiplier_mono_artist _ _ hsa) (penalty_multiplier_nonneg _ _ _)
    (mul_nonneg (clamp01_nonneg _) hm)

/-- Monotonicity of the final score in the track overlap when the
penalty-relevant term membership is unchanged. -/
theorem score_candidate_mono_track (t : ScoreTarget) (c c' : ScoreCandidate) (m : ℚ)
    (hm : 0 ≤ m)
    (har : c'.artistTokens = c.artistTokens) (hal : c'.albumTokens = c.albumTokens)
    (hti : c'.titleTokens = c.titleTokens) (hdu : c'.duration = c.duration)
    (hsize : c'.trackTokens.dedup.length = c.trackTokens.dedup.length)
    (hov : token_overlap t.trackTokens c.trackTokens ≤
      token_overlap t.trackTokens c'.trackTokens)
    (hpen : has_terms (c'.trackTokens ++ c'.titleTokens) penaltyTerms =
      has_terms (c.trackTokens ++ c.titleTokens) penaltyTerms)
    (hlive : has_terms (c'.trackTokens ++ c'.titleTokens) liveTerms =
      has_terms (c.trackTokens ++ c.titleTokens) liveTerms)
    (hrem : has_terms (c'.trackTokens ++ c'.titleTokens) remasterTerms =
      has_terms (c.trackTokens ++ c.titleTokens) remasterTerms) :
    score_candidate t c m ≤ score_candidate t c' m := by
  rw [hti] at hpen hlive hrem
  rw [score_candidate_eq, score_candidate_eq, har, hal, hti, hdu]
  have hpm : penalty_multiplier t.trackTokens (c'.trackTokens ++ c.titleTokens)
      (token_similarity t.artistTokens c.artistTokens) =
      penalty_multiplier t.trackTokens (c.trackTokens ++ c.titleTokens)
        (token_similarity t.artistTokens c.artistTokens) := by
    unfold penalty_multiplier
    rw [hpen, hlive, hrem]
  rw [hpm]
  have hst : (if ¬ t.trackTokens.isEmpty = true then
        token_similarity t.trackTokens c.trackTokens else (3 : ℚ)/5) ≤
      (if ¬ t.trackTokens.isEmpty = true then
        token_similarity t.trackTokens c'.trackTokens else (3 : ℚ)/5) := by
    split_ifs
    all_goals first
      | exact le_refl _
      | exact token_similarity_mono_overlap hsize.symm hov
  exact mul_le_mul_of_nonneg_right
    (mul_le_mul_of_nonneg_right (clamp01_mono (by linarith)) hm)
    (penalty_multiplier_nonneg _ _ _)

/-- Adding a penalty term to the candidate title never increases the final
score. -/
theorem score_candidate_penalty_title (t : ScoreTarget) (c : ScoreCandidate) (m : ℚ)
    (p : String) (hm : 0 ≤ m) (hp : p ∈ penaltyTerms) :
    score_candidate t { c with titleTokens := c.titleTokens ++ [p] } m ≤
      score_candidate t c m := by
  rw [score_candidate_eq, score_candidate_eq]
  dsimp only
  refine mul_le_mul_of_nonneg_left ?_ (mul_nonneg (clamp01_nonneg _) hm)
  have hlivep : p ∉ liveTerms := by fin_cases hp <;> decide
  have hremp : p ∉ remasterTerms := by fin_cases hp <;> decide
  have hpenp : p ∈ penaltyTerms := hp
  have h2 : has_terms (c.trackTokens ++ (c.titleTokens ++ [p])) liveTerms =
      has_terms (c.trackTokens ++ c.titleTokens) liveTerms := by
    simp [has_terms, List.any_append, hlivep]
  have h3 : has_terms (c.trackTokens ++ (c.titleTokens ++ [p])) remasterTerms =
      has_terms (c.trackTokens ++ c.titleTokens) remasterTerms := by
    simp [has_terms, List.any_append, hremp]
  have hA' : has_terms (c.trackTokens ++ (c.titleTokens ++ [p])) penaltyTerms = true := by
    simp [has_terms, List.any_append, hpenp]
  unfold penalty_multiplier
  rw [h2, h3, hA']
  refine mul_le_mul_of_nonneg_right (mul_le_mul_of_nonneg_right
    (mul_le_mul_of_nonneg_right ?_ (by split_ifs <;> norm_num))
    (by split_ifs <;> norm_num)) (by split_ifs <;> norm_num)
  by_cases hT : has_terms t.trackTokens penaltyTerms = true
  · simp [hT]
  · by_cases hA : has_terms (c.trackTokens ++ c.titleTokens) penaltyTerms = true
    · simp [hA, hT]
    · simp only [hA, hT, eq_self_iff_true, not_false_iff, and_true, true_and, if_true,
        Bool.false_eq_true, false_and, if_false]
      norm_num

/-- Claim C8 (counterexample): increasing the track token-set overlap with all
other candidate fields equal (and equal deduplicated sizes) can decrease
`final_score`: swapping candidate track tokens ["song","x","y"] (overlap 1)
for ["song","extra","live"] (overlap 2) introduces a "live" mismatch whose
0.85 penalty outweighs the similarity gain (43/60 > 17/24). -/
theorem score_track_overlap_not_monotone :
    token_overlap c8target.trackTokens c8cand1.trackTokens = 1 ∧
    token_overlap c8target.trackTokens c8cand2.trackTokens = 2 ∧
    c8cand1.trackTokens.dedup.length = c8cand2.trackTokens.dedup.length ∧
    c8cand1.artistTokens = c8cand2.artistTokens ∧
    c8cand1.albumTokens = c8cand2.albumTokens ∧
    c8cand1.titleTokens = c8cand2.titleTokens ∧
    c8cand1.duration = c8cand2.duration ∧
    score_candidate c8target c8cand2 1 < score_candidate c8target c8cand1 1 := by
  refine ⟨by decide, by decide, by decide, rfl, rfl, rfl, rfl, ?_⟩
  rw [score_candidate_eq, score_candidate_eq]
  simp only [c8target, c8cand1, c8cand2, List.isEmpty_cons, List.append_nil]
  have h0 : token_similarity ["alb"] ["alb"] = 1 := by
    rw [token_similarity]
    have ho : token_overlap ["alb"] ["alb"] = 1 := by decide
    rw [ho]
    norm_num
  have h1 : token_similarity ["a"] ["a"] = 1 := by
    rw [token_similarity]
    have ho : token_overlap ["a"] ["a"] = 1 := by decide
    rw [ho]
    norm_num
  have h2 : token_similarity ["song", "extra", "zzz"] ["song", "extra", "live"] = 2/3 := by
    rw [token_similarity]
    have ho : token_overlap ["song", "extra", "zzz"] ["song", "extra", "live"] = 2 := by decide
    have hd1 : (["song", "extra", "zzz"] : List String).dedup.length = 3 := by decide
    have hd2 : (["song", "extra", "live"] : List String).dedup.length = 3 := by decide
    rw [ho, hd1, hd2]
    norm_num
  have h3 : token_similarity ["song", "extra", "zzz"] ["song", "x", "y"] = 1/3 := by
    rw [token_similarity]
    have ho : token_overlap ["song", "extra", "zzz"] ["song", "x", "y"] = 1 := by decide
    have hd1 : (["song", "extra", "zzz"] : List String).dedup.length = 3 := by decide
    have hd2 : (["song", "x", "y"] : List String).dedup.length = 3 := by decide
    rw [ho, hd1, hd2]
    norm_num
  have h4 : duration_score (some 100) (some 100) = 1 := by decide
  have h5 : penalty_multiplier ["song", "extra", "zzz"] ["song", "extra", "live"] 1 = 85/100 := by
    rw [penalty_multiplier]
    have ha : has_terms ["song", "extra", "live"] penaltyTerms = false := by decide
    have hb : has_terms ["song", "extra", "zzz"] penaltyTerms = false := by decide
    have hc : has_terms ["song", "extra", "live"] liveTerms = true := by decide
    have hd : has_terms ["song", "extra", "zzz"] liveTerms = false := by decide
    have he : has_terms ["song", "extra", "live"] remasterTerms = false := by decide
    have hf : has_terms ["song", "extra", "zzz"] remasterTerms = false := by decide
    rw [ha, hb, hc, hd, he, hf]
    norm_num
  have h6 : penalty_multiplier ["song", "extra", "zzz"] ["song", "x", "y"] 1 = 1 := by
    rw [penalty_multiplier]
    have ha : has_terms ["song", "x", "y"] penaltyTerms = false := by decide
    have hb : has_terms ["song", "extra", "zzz"] penaltyTerms = false := by decide
    have hc : has_terms ["song", "x", "y"] liveTerms = false := by decide
    have hd : has_terms ["song", "extra", "zzz"] liveTerms = false := by decide
    have he : has_terms ["song", "x", "y"] remasterTerms = false := by decide
    have hf : has_terms ["song", "extra", "zzz"] remasterTerms = false := by decide
    rw [ha, hb, hc, hd, he, hf]
    norm_num
  rw [h0, h1, h2, h3, h4, h5, h6]
  rw [clamp01, clamp01]
  norm_num

/-- Claim C8 (amended) — scoring monotonicity, for a nonnegative source
modifier: (a) increasing the artist token-set overlap (equal deduplicated
sizes, every other candidate field fixed) never decreases `final_score`;
(b) increasing the track token-set overlap likewise never decreases
`final_score` provided the change leaves the candidate's penalty/live/remaster
term membership unchanged; (c) adding a penalty term that is absent from the
target's track tokens to the candidate title never increases `final_score`. -/
theorem score_candidate_monotonicity :
    (∀ (t : ScoreTarget) (c c' : ScoreCandidate) (m : ℚ), 0 ≤ m →
      c'.trackTokens = c.trackTokens → c'.albumTokens = c.albumTokens →
      c'.titleTokens = c.titleTokens → c'.duration = c.duration →
      c'.artistTokens.dedup.length = c.artistTokens.dedup.length →
      token_overlap t.artistTokens c.artistTokens ≤
        token_overlap t.artistTokens c'.artistTokens →
      score_candidate t c m ≤ score_candidate t c' m) ∧
    (∀ (t : ScoreTarget) (c c' : ScoreCandidate) (m : ℚ), 0 ≤ m →
      c'.artistTokens = c.artistTokens → c'.albumTokens = c.albumTokens →
      c'.titleTokens = c.titleTokens → c'.duration = c.duration →
      c'.trackTokens.dedup.length = c.trackTokens.dedup.length →
      token_overlap t.trackTokens c.trackTokens ≤
        token_overlap t.trackTokens c'.trackTokens →
      has_terms (c'.trackTokens ++ c'.titleTokens) penaltyTerms =
        has_terms (c.trackTokens ++ c.titleTokens) penaltyTerms →
      has_terms (c'.trackTokens ++ c'.titleTokens) liveTerms =
        has_terms (c.trackTokens ++ c.titleTokens) liveTerms →
      has_terms (c'.trackTokens ++ c'.titleTokens) remasterTerms =
        has_terms (c.trackTokens ++ c.titleTokens) remasterTerms →
      score_candidate t c m ≤ score_candidate t c' m) ∧
    (∀ (t : ScoreTarget) (c : ScoreCandidate) (m : ℚ) (p : String), 0 ≤ m →
      p ∈ penaltyTerms → p ∉ t.trackTokens →
      score_candidate t { c with titleTokens := c.titleTokens ++ [p] } m ≤
        score_candidate t c m) := by
  refine ⟨?_, ?_, ?_⟩
  · intro t c c' m hm htr hal hti hdu hsize hov
    exact score_candidate_mono_artist t c c' m hm htr hal hti hdu hsize hov
  · intro t c c' m hm har hal hti hdu hsize hov hpen hlive hrem
    exact score_candidate_mono_track t c c' m hm har hal hti hdu hsize hov hpen hlive hrem
  · intro t c m p hm hp _
    exact score_candidate_penalty_title t c m p hm hp

/-- Witness for the scoring-monotonicity theorem: adding "cover" to a concrete
candidate's title does not increase its score against a concrete target. -/
theorem score_candidate_monotonicity_witness :
    score_candidate c8target { c8cand1 with titleTokens := c8cand1.titleTokens ++ ["cover"] } 1 ≤
      score_candidate c8target c8cand1 1 :=
  score_candidate_monotonicity.2.2 c8target c8cand1 1 "cover" (by norm_num)
    (by decide) (by decide)

/-- Claim C9 (counterexample): when the window's end instant is known,
`_await_downtime_end` sleeps the entire remaining time in one slice — here 300
seconds, exceeding the claimed 60-second bound — so the stop event is observed
only at slice boundaries, not within 60 seconds. -/
theorem downtime_sleep_slice_exceeds_sixty :
    downtime_sleep_seconds (some 300) 0 = 300 ∧
    60 < downtime_sleep_seconds (some 300) 0 ∧
    await_downtime_end (fun t => (decide (t < 300), some 300)) (fun _ => false) 2 0 =
      some 300 := by
  refine ⟨by decide, by decide, by decide⟩

/-- Claim C9 (amended) — downtime blocking: the downtime-aware wait returns
only at an instant where the downtime policy reports inactive or the stop
event is set; the per-iteration sleep is the entire remaining time to the
window's end when the end instant is known and 60 seconds otherwise; and for a
non-wrapping window, `_in_downtime` is active exactly on [start, end) and then
reports the window's end as the next allowed instant. -/
theorem await_downtime_end_spec :
    (∀ (policy : Int → Bool × Option Int) (stop : Int → Bool) (fuel : Nat) (t r : Int),
      await_downtime_end policy stop fuel t = some r →
      (policy r).1 = false ∨ stop r = true) ∧
    (∀ now : Int, downtime_sleep_seconds none now = 60) ∧
    (∀ na now : Int, downtime_sleep_seconds (some na) now = max 0 (na - now)) ∧
    (∀ now start e : Int, start ≤ e →
      ((in_downtime now start e).1 = true ↔ start ≤ now ∧ now < e) ∧
      ((in_downtime now start e).1 = true → (in_downtime now start e).2 = some e)) := by
  refine ⟨?_, fun now => rfl, fun na now => rfl, ?_⟩
  · intro policy stop fuel
    induction fuel with
    | zero => intro t r h; cases h
    | succ n ih =>
        intro t r h
        rw [await_downtime_end] at h
        by_cases h1 : ¬ (policy t).1 = true
        · rw [if_pos h1] at h
          obtain rfl : t = r := Option.some.inj h
          left
          cases hb : (policy t).1 with
          | false => rfl
          | true => exact absurd hb h1
        · rw [if_neg h1] at h
          by_cases h2 : stop t = true
          · rw [if_pos h2] at h
            obtain rfl : t = r := Option.some.inj h
            right
            exact h2
          · rw [if_neg h2] at h
            exact ih _ r h
  · intro now start e hse
    unfold in_downtime
    rw [if_pos hse]
    by_cases hin : start ≤ now ∧ now < e
    · rw [if_pos hin]
      exact ⟨⟨fun _ => hin, fun _ => rfl⟩, fun _ => rfl⟩
    · rw [if_neg hin]
      refine ⟨⟨?_, ?_⟩, ?_⟩
      · intro hfalse
        exact absurd hfalse (by simp)
      · intro hcontra
        exact absurd hcontra hin
      · intro hfalse
        exact absurd hfalse (by simp)

/-- Witness for the downtime theorem at a concrete policy, stop event and
window. -/
theorem await_downtime_end_spec_witness :
    (((fun t : Int => ((decide (t < 300) : Bool), (some 300 : Option Int))) 300).1 = false ∨
      (fun _ : Int => false) 300 = true) ∧
    (((in_downtime 5 0 10).1 = true ↔ (0 : Int) ≤ 5 ∧ (5 : Int) < 10) ∧
      ((in_downtime 5 0 10).1 = true → (in_downtime 5 0 10).2 = some 10)) :=
  ⟨await_downtime_end_spec.1 (fun t => (decide (t < 300), some 300)) (fun _ => false) 2 0 300
      (by decide),
   await_downtime_end_spec.2.2.2 5 0 10 (by norm_num)⟩

end YTA
